import Mathlib

/-!
Verification development for the BabySip offline-first synchronization
subsystem: a shallow embedding of the identifier generator
(src/utils/idService.ts), the real-time channel (RealTimeSyncService),
the sync queue orchestrator (SyncService), the local record store
operations of DatabaseService.ts, and the remote REST endpoints
(backend/routes/bottles.js, backend/routes/poops.js), together with
theorems settling the specification claims about them.
-/

namespace BabySip

/-- JSON values, modelling what JSON.stringify produces and JSON.parse
consumes.  Numbers are restricted to integers, which covers every value
the sync queue serializes (timestamps and retry counters). -/
inductive Json where
  | jnull : Json
  | jbool : Bool → Json
  | jnum : Int → Json
  | jstr : String → Json
  | jarr : List Json → Json
  | jobj : List (String × Json) → Json
deriving Repr, Inhabited

/-- Field lookup in a JSON object (first binding wins, as in a JS object
whose keys are distinct). -/
def jlookup : List (String × Json) → String → Option Json
  | [], _ => none
  | (k, v) :: rest, key => if k = key then some v else jlookup rest key

/-! ## Identifier Generator (src/utils/idService.ts) -/

/-- The static mutable state of IDService: `lastTimestamp` and `counter`. -/
structure IDState where
  lastTimestamp : Nat
  counter : Nat
deriving Repr, DecidableEq

/-- The id string assembled by IDService.generateUniqueId:
uniqueTimestamp, uuid and deviceId joined by underscores. -/
def mkId (ts : Nat) (uuid deviceId : String) : String :=
  toString ts ++ "_" ++ uuid ++ "_" ++ deviceId

/-- IDService.generateUniqueId.  `now` is the Date.now() reading and
`uuid` the string returned by the Math.random-based generateUUID call.
If the wall clock equals `lastTimestamp`, the counter is incremented and
added to the timestamp (without advancing `lastTimestamp`); otherwise the
counter resets and `lastTimestamp` is set to `now`. -/
def generateUniqueId (st : IDState) (now : Nat) (uuid deviceId : String) :
    IDState × String :=
  if now = st.lastTimestamp then
    let c := st.counter + 1
    ({ st with counter := c }, mkId (now + c) uuid deviceId)
  else
    ({ lastTimestamp := now, counter := 0 }, mkId now uuid deviceId)

/-- A run of sequential generateUniqueId calls on one device; each call
supplies its clock reading and its random uuid string. -/
def genRun (st : IDState) (deviceId : String) : List (Nat × String) → List String
  | [] => []
  | (now, uuid) :: rest =>
    let r := generateUniqueId st now uuid deviceId
    r.2 :: genRun r.1 deviceId rest

/-! ## Real-Time Channel (RealTimeSyncService) -/

namespace Rts

/-- Real-Time Message type tags.  CONNECTED is not in the declared
client union but is dispatched on by SyncService.handleRealTimeMessage;
UNKNOWN stands for any other tag reaching the default case. -/
inductive RTMessageType where
  | SYNC_REQUESTED
  | GROUP_UPDATED
  | SETTINGS_CHANGED
  | DATA_CLEARED
  | CONNECTED
  | UNKNOWN
deriving Repr, DecidableEq

/-- A Real-Time Message as received over the socket.  `deviceId` is
optional in the interface, hence an Option. -/
structure RTMessage where
  type : RTMessageType
  data : Json
  userId : Int
  groupId : Int
  timestamp : Nat
  messageId : Option String
  deviceId : Option String

/-- JS strict equality between `sessionDeviceId : string | null` and
`message.deviceId : string | undefined`: true exactly when both are
present and equal (null === undefined is false in JS). -/
def strictEqIds : Option String → Option String → Bool
  | some a, some b => a == b
  | _, _ => false

/-- RealTimeSyncService.handleMessage: if the message's deviceId equals
this session's deviceId the message is ignored; otherwise every
registered message listener is invoked with the message.  The result
lists the listener invocations performed. -/
def handleMessage (sessionDeviceId : Option String) (listeners : List Nat)
    (m : RTMessage) : List (Nat × RTMessage) :=
  if strictEqIds sessionDeviceId m.deviceId then []
  else listeners.map (fun l => (l, m))

/-- Mutations/syncs that SyncService.handleRealTimeMessage can trigger. -/
inductive OrchestratorAction where
  | syncFromCloud
  | clearAllDataAndSyncFromCloud
deriving Repr, DecidableEq

/-- SyncService.handleRealTimeMessage: drops messages from the same
device, then dispatches on the message type.  CONNECTED, SYNC_REQUESTED,
GROUP_UPDATED and SETTINGS_CHANGED all trigger syncFromCloud;
DATA_CLEARED triggers clearAllDataAndSyncFromCloud; anything else only
logs.  The result lists the triggered actions. -/
def handleRealTimeMessage (currentDeviceId : String) (m : RTMessage) :
    List OrchestratorAction :=
  if m.deviceId = some currentDeviceId then []
  else
    match m.type with
    | .CONNECTED => [.syncFromCloud]
    | .SYNC_REQUESTED => [.syncFromCloud]
    | .GROUP_UPDATED => [.syncFromCloud]
    | .SETTINGS_CHANGED => [.syncFromCloud]
    | .DATA_CLEARED => [.clearAllDataAndSyncFromCloud]
    | .UNKNOWN => []

/-- The RealTimeStatus record of RealTimeSyncService. -/
structure RTStatus where
  isConnected : Bool
  isConnecting : Bool
  connectionAttempts : Nat
  lastConnected : Option Nat
  error : Option String
  reconnectAttempts : Nat
deriving Repr, DecidableEq

/-- The initial status value of the service. -/
def RTStatus.start : RTStatus :=
  { isConnected := false
    isConnecting := false
    connectionAttempts := 0
    lastConnected := none
    error := none
    reconnectAttempts := 0 }

def maxReconnectAttempts : Nat := 5

def reconnectDelay : Nat := 1000

def maxAttemptsError : String := "Max reconnection attempts reached"

/-- RealTimeSyncService.handleDisconnection: marks disconnected; a clean
close (code 1000) schedules nothing; otherwise, if fewer than
maxReconnectAttempts failures are recorded, a reconnect is scheduled
after reconnectDelay * 2 ^ reconnectAttempts milliseconds (the counter is
NOT incremented here); otherwise the persistent error is reported.  The
second component is the scheduled backoff delay, if any. -/
def handleDisconnection (st : RTStatus) (code : Nat) : RTStatus × Option Nat :=
  let st1 := { st with isConnected := false }
  if code = 1000 then (st1, none)
  else if st1.reconnectAttempts < maxReconnectAttempts then
    (st1, some (reconnectDelay * 2 ^ st1.reconnectAttempts))
  else
    ({ st1 with error := some maxAttemptsError }, none)

/-- Possible resolutions of a reconnect attempt: the socket opens, the
attempt throws an exception before a socket exists, or a socket is
created but closes again with the given code. -/
inductive ReconnectOutcome where
  | opened (now : Nat)
  | threw
  | closedAgain (code : Nat)

/-- The status update performed at the top of connect(). -/
def connectEntry (st : RTStatus) : RTStatus :=
  { st with isConnecting := true, error := none }

/-- A reconnect attempt resolving with the given outcome.  An opened
socket resets all counters (the onopen handler); a thrown exception hits
the catch in the scheduled callback, which increments reconnectAttempts;
a socket that closes again re-enters handleDisconnection with the
counter unchanged. -/
def reconnectAttempt (st : RTStatus) : ReconnectOutcome → RTStatus × Option Nat
  | .opened now =>
    ({ connectEntry st with
       isConnected := true
       isConnecting := false
       connectionAttempts := 0
       lastConnected := some now
       error := none
       reconnectAttempts := 0 }, none)
  | .threw =>
    ({ st with
       reconnectAttempts := st.reconnectAttempts + 1
       error := some "Reconnection failed" }, none)
  | .closedAgain code => handleDisconnection (connectEntry st) code

/-- Events driving the reconnection state machine: the open socket
closes, or a reconnect attempt (scheduled or externally triggered)
resolves. -/
inductive RTEvent where
  | closed (code : Nat)
  | attempt (o : ReconnectOutcome)

def rtStep (st : RTStatus) : RTEvent → RTStatus × Option Nat
  | .closed code => handleDisconnection st code
  | .attempt o => reconnectAttempt st o

/-- Run a sequence of events, collecting every scheduled backoff delay in
order. -/
def rtRun (st : RTStatus) : List RTEvent → RTStatus × List Nat
  | [] => (st, [])
  | e :: rest =>
    let r := rtStep st e
    let rr := rtRun r.1 rest
    (rr.1, (match r.2 with | some d => [d] | none => []) ++ rr.2)

end Rts

/-! ## Remote Transport endpoints (backend/routes/bottles.js, poops.js) -/

namespace Api

/-- A bottle row in the remote store (user scoping dropped: one user). -/
structure CloudBottle where
  id : String
  amount : Int
  time : String
  color : String
deriving Repr, DecidableEq

/-- A poop row in the remote store. -/
structure CloudPoop where
  id : String
  time : String
  info : Option String
  color : String
deriving Repr, DecidableEq

inductive ApiError where
  | notFound
  | badRequest
deriving Repr, DecidableEq

/-- JS truthiness test for an optional string: undefined, null and the
empty string are falsy. -/
def jsFalsyStr : Option String → Bool
  | none => true
  | some s => s == ""

/-- The JS idiom `value || default` for an optional string. -/
def jsOrDefault (c : Option String) (d : String) : String :=
  match c with
  | none => d
  | some s => if s == "" then d else s

/-- POST /bottles: rejects a falsy id, amount or time with 400, else
inserts a row with the client-supplied id (color defaulting per
`color || '#6366F1'`). -/
def postBottle (store : List CloudBottle) (id : String) (amount : Int)
    (time : String) (color : Option String) : Except ApiError (List CloudBottle) :=
  if id == "" || amount == 0 || time == "" then .error .badRequest
  else .ok (store ++ [⟨id, amount, time, jsOrDefault color "#6366F1"⟩])

/-- PUT /bottles/:id: 404 when no row has the id, else overwrites amount,
time and color of the matching row. -/
def putBottle (store : List CloudBottle) (id : String) (amount : Int)
    (time color : String) : Except ApiError (List CloudBottle) :=
  if store.all (fun b => b.id != id) then .error .notFound
  else .ok (store.map (fun b =>
    if b.id == id then { b with amount := amount, time := time, color := color }
    else b))

/-- POST /poops: rejects a falsy id or time with 400, else inserts a row
(info per `info || null`, color per `color || '#8B4513'`). -/
def postPoop (store : List CloudPoop) (id time : String)
    (info color : Option String) : Except ApiError (List CloudPoop) :=
  if id == "" || time == "" then .error .badRequest
  else .ok (store ++ [⟨id, time, if jsFalsyStr info then none else info,
    jsOrDefault color "#8B4513"⟩])

/-- PUT /poops/:id: rejects a falsy time with 400, 404 when no row has
the id, else overwrites time, info and color of the matching row. -/
def putPoop (store : List CloudPoop) (id time : String)
    (info color : Option String) : Except ApiError (List CloudPoop) :=
  if time == "" then .error .badRequest
  else if store.all (fun p => p.id != id) then .error .notFound
  else .ok (store.map (fun p =>
    if p.id == id then
      { p with
        time := time
        info := if jsFalsyStr info then none else info
        color := jsOrDefault color "#8B4513" }
    else p))

/-- SyncService.processBottleSync, case action = update: PUT the record;
if the server answers 404, POST the same payload instead; any other
error is rethrown (to be retried by the queue). -/
def processBottleUpdate (store : List CloudBottle) (id : String) (amount : Int)
    (time color : String) : Except ApiError (List CloudBottle) :=
  match putBottle store id amount time color with
  | .ok s => .ok s
  | .error .notFound => postBottle store id amount time (some color)
  | .error e => .error e

/-- SyncService.processPoopSync, case action = update: PUT the record;
if the server answers 404, POST the same payload instead; any other
error is rethrown. -/
def processPoopUpdate (store : List CloudPoop) (id time : String)
    (info color : Option String) : Except ApiError (List CloudPoop) :=
  match putPoop store id time info color with
  | .ok s => .ok s
  | .error .notFound => postPoop store id time info color
  | .error e => .error e

end Api

/-! ## Sync Queue orchestrator (SyncService) -/

namespace Sync

inductive ItemType where
  | bottle
  | poop
  | group
deriving Repr, DecidableEq

inductive ItemAction where
  | create
  | update
  | delete
  | add
deriving Repr, DecidableEq

/-- The payload shapes DatabaseService enqueues: bottle create/update
carry id, amount, time, color; poop create carries id, time, info,
color; poop update carries id, time, info (no color); deletes carry the
id alone. -/
inductive SyncData where
  | bottleFields (id : String) (amount : Int) (time : String) (color : String)
  | poopCreateFields (id : String) (time : String) (info : Option String) (color : String)
  | poopUpdateFields (id : String) (time : String) (info : Option String)
  | idOnly (id : String)
deriving Repr, DecidableEq

/-- A SyncItem of the queue. -/
structure SyncItem where
  id : String
  type : ItemType
  action : ItemAction
  data : SyncData
  timestamp : Nat
  retryCount : Nat
deriving Repr, DecidableEq

def itemTypeStr : ItemType → String
  | .bottle => "bottle"
  | .poop => "poop"
  | .group => "group"

def itemActionStr : ItemAction → String
  | .create => "create"
  | .update => "update"
  | .delete => "delete"
  | .add => "add"

def decodeItemType (s : String) : Option ItemType :=
  if s = "bottle" then some .bottle
  else if s = "poop" then some .poop
  else if s = "group" then some .group
  else none

def decodeItemAction (s : String) : Option ItemAction :=
  if s = "create" then some .create
  else if s = "update" then some .update
  else if s = "delete" then some .delete
  else if s = "add" then some .add
  else none

def encodeOptStr : Option String → Json
  | none => .jnull
  | some s => .jstr s

def asOptStr : Json → Option (Option String)
  | .jnull => some none
  | .jstr s => some (some s)
  | _ => none

/-- JSON.stringify of a queue item's data object, field order as in the
TS object literals. -/
def encodeData : SyncData → Json
  | .bottleFields id amount time color =>
    .jobj [("id", .jstr id), ("amount", .jnum amount), ("time", .jstr time),
           ("color", .jstr color)]
  | .poopCreateFields id time info color =>
    .jobj [("id", .jstr id), ("time", .jstr time), ("info", encodeOptStr info),
           ("color", .jstr color)]
  | .poopUpdateFields id time info =>
    .jobj [("id", .jstr id), ("time", .jstr time), ("info", encodeOptStr info)]
  | .idOnly id =>
    .jobj [("id", .jstr id)]

/-- JSON.parse of a data object back into the payload shape, recognised
by which fields are present. -/
def decodeData : Json → Option SyncData
  | .jobj fields =>
    match jlookup fields "id" with
    | some (.jstr id) =>
      match jlookup fields "amount", jlookup fields "time",
            jlookup fields "info", jlookup fields "color" with
      | some (.jnum amount), some (.jstr time), none, some (.jstr color) =>
        some (.bottleFields id amount time color)
      | none, some (.jstr time), some ji, some (.jstr color) =>
        match asOptStr ji with
        | some info => some (.poopCreateFields id time info color)
        | none => none
      | none, some (.jstr time), some ji, none =>
        match asOptStr ji with
        | some info => some (.poopUpdateFields id time info)
        | none => none
      | none, none, none, none => some (.idOnly id)
      | _, _, _, _ => none
    | _ => none
  | _ => none

/-- JSON.stringify of a queue item (the addToSyncQueue object spread puts
type, action, data first, then id, timestamp, retryCount). -/
def encodeItem (i : SyncItem) : Json :=
  .jobj [("type", .jstr (itemTypeStr i.type)),
         ("action", .jstr (itemActionStr i.action)),
         ("data", encodeData i.data),
         ("id", .jstr i.id),
         ("timestamp", .jnum i.timestamp),
         ("retryCount", .jnum i.retryCount)]

def decodeItem : Json → Option SyncItem
  | .jobj fields =>
    match jlookup fields "id", jlookup fields "type", jlookup fields "action",
          jlookup fields "data", jlookup fields "timestamp",
          jlookup fields "retryCount" with
    | some (.jstr id), some (.jstr t), some (.jstr act), some d,
      some (.jnum ts), some (.jnum rc) =>
      match decodeItemType t, decodeItemAction act, decodeData d with
      | some ty, some a, some da =>
        if ts < 0 ∨ rc < 0 then none
        else some ⟨id, ty, a, da, ts.toNat, rc.toNat⟩
      | _, _, _ => none
    | _, _, _, _, _, _ => none
  | _ => none

/-- JSON.stringify(this.syncQueue), as written by saveSyncQueue. -/
def encodeQueue (q : List SyncItem) : Json :=
  .jarr (q.map encodeItem)

/-- Element-wise decoding of a JSON array of queue items; any bad
element fails the whole parse. -/
def decodeItems : List Json → Option (List SyncItem)
  | [] => some []
  | j :: rest =>
    match decodeItem j, decodeItems rest with
    | some i, some is => some (i :: is)
    | _, _ => none

/-- JSON.parse(queueData), as read by loadSyncQueue. -/
def decodeQueue : Json → Option (List SyncItem)
  | .jarr xs => decodeItems xs
  | _ => none

/-- The SyncService state: the in-memory queue, the SyncStatus fields,
and the AsyncStorage 'syncQueue' key contents (`persisted`). -/
structure SyncState where
  syncQueue : List SyncItem
  isOnline : Bool
  isSyncing : Bool
  lastSync : Option Nat
  pendingItems : Nat
  error : Option String
  persisted : Option Json
deriving Repr, Inhabited

/-- The queue-entry id assembled by addToSyncQueue from the item type,
action, Date.now() and Math.random(). -/
def mkQueueId (t : ItemType) (a : ItemAction) (now : Nat) (rand : String) : String :=
  itemTypeStr t ++ "_" ++ itemActionStr a ++ "_" ++ toString now ++ "_" ++ rand

/-- A not-yet-enqueued mutation, as passed to addToSyncQueue. -/
structure PendingItem where
  type : ItemType
  action : ItemAction
  data : SyncData
deriving Repr, DecidableEq

/-- SyncService.addToSyncQueue: assigns id, timestamp and retryCount 0,
appends, updates pendingItems and persists the whole queue.  (The
trailing `if online then sync()` trigger is a separate `sync` call in
this model.) -/
def addToSyncQueue (st : SyncState) (p : PendingItem) (now : Nat) (rand : String) :
    SyncState :=
  let item : SyncItem :=
    ⟨mkQueueId p.type p.action now rand, p.type, p.action, p.data, now, 0⟩
  let q := st.syncQueue ++ [item]
  { st with
    syncQueue := q
    pendingItems := q.length
    persisted := some (encodeQueue q) }

/-- A sequence of addToSyncQueue calls. -/
def enqueueMany (st : SyncState) : List (PendingItem × Nat × String) → SyncState
  | [] => st
  | (p, now, rand) :: rest => enqueueMany (addToSyncQueue st p now rand) rest

/-- SyncService.loadSyncQueue: reads the stored queue; a missing key or
an unparseable value leaves the queue untouched. -/
def loadSyncQueue (st : SyncState) (stored : Option Json) : SyncState :=
  match stored with
  | none => st
  | some j =>
    match decodeQueue j with
    | some q =>
      { st with
        syncQueue := q
        pendingItems := q.length }
    | none => st

/-- The fresh service state right after a process restart, before
loadSyncQueue runs, with the surviving AsyncStorage contents. -/
def restartState (persisted : Option Json) : SyncState :=
  { syncQueue := []
    isOnline := false
    isSyncing := false
    lastSync := none
    pendingItems := 0
    error := none
    persisted := persisted }

/-- The reentrancy/connectivity/emptiness guard at the top of sync(). -/
def syncGuardFails (st : SyncState) : Bool :=
  st.isSyncing || !st.isOnline || st.syncQueue.isEmpty

/-- The synchronous prefix of a sync() pass: the busy flag is set and the
error cleared before the first suspension point. -/
def syncBegin (st : SyncState) : SyncState :=
  { st with isSyncing := true, error := none }

/-- One item of the drain loop: `a` tells whether processSyncItem
resolves.  On failure retryCount is incremented (on the shared object);
the Boolean tells whether the item's id joins successfulItems (success,
or retryCount reaching 3 — abandoned). -/
def processItem (a : SyncItem → Bool) (i : SyncItem) : SyncItem × Bool :=
  if a i then (i, true)
  else
    let i' := { i with retryCount := i.retryCount + 1 }
    (i', decide (3 ≤ i'.retryCount))

/-- The drain loop over the snapshot: returns the snapshot items with
updated retry counts, and successfulItems (the ids to remove). -/
def processPass (a : SyncItem → Bool) : List SyncItem → List SyncItem × List String
  | [] => ([], [])
  | i :: rest =>
    let r := processItem a i
    let rr := processPass a rest
    (r.1 :: rr.1, (if r.2 then [i.id] else []) ++ rr.2)

/-- The tail of a sync() pass: the queue at this point consists of the
snapshot objects (with mutated retry counts) followed by any items pushed
while the pass was suspended; items whose id is in successfulItems are
filtered out, the result is persisted, lastSync set and the busy flag
cleared. -/
def syncFinish (a : SyncItem → Bool) (now : Nat) (st : SyncState)
    (snapshot added : List SyncItem) : SyncState :=
  let pr := processPass a snapshot
  let newQueue := (pr.1 ++ added).filter (fun i => !(pr.2.contains i.id))
  { st with
    syncQueue := newQueue
    pendingItems := newQueue.length
    lastSync := some now
    persisted := some (encodeQueue newQueue)
    isSyncing := false }

/-- A full sync() call during which `added` items are enqueued by
concurrent addToSyncQueue calls after the snapshot is taken.  The second
component lists the ids attempted (in order).  When the guard fails the
call returns at once, attempting nothing. -/
def syncWithAdds (a : SyncItem → Bool) (now : Nat) (st : SyncState)
    (added : List SyncItem) : SyncState × List String :=
  if syncGuardFails st then (st, [])
  else (syncFinish a now (syncBegin st) st.syncQueue added,
        st.syncQueue.map (fun i => i.id))

/-- A sync() call with no concurrent enqueues. -/
def sync (a : SyncItem → Bool) (now : Nat) (st : SyncState) :
    SyncState × List String :=
  syncWithAdds a now st []

end Sync

/-! ## Local Record Store operations (DatabaseService.ts) -/

namespace Db

/-- Data-change event tags of the dataChangeEmitter. -/
inductive EventType where
  | BOTTLE_ADDED
  | BOTTLE_UPDATED
  | BOTTLE_DELETED
  | POOP_ADDED
  | POOP_UPDATED
  | POOP_DELETED
  | GROUP_UPDATED
  | SETTINGS_CHANGED
  | CLOUD_SYNC_COMPLETED
  | SYNC_REQUESTED
deriving Repr, DecidableEq

/-- The event payloads relevant to the claims. -/
inductive EventData where
  | bottleDeleted (bottleId : String)
  | poopDeleted (poopId : String)
  | bottleUpdate (bottleId : String) (amount : Int) (time : String) (color : Option String)
  | poopUpdate (poopId : String) (time : String) (info : Option String)
deriving Repr, DecidableEq

structure DataChangeEvent where
  type : EventType
  data : EventData
  timestamp : Nat
deriving Repr, DecidableEq

/-- A row of the entries (bottles) table. -/
structure Entry where
  id : String
  amount : Int
  time : String
  color : String
  syncStatus : String
deriving Repr, DecidableEq

/-- A row of the poop table. -/
structure PoopRow where
  id : String
  time : String
  info : Option String
  color : String
  syncStatus : String
deriving Repr, DecidableEq

/-- The row effect of updateBottle's UPDATE statement: amount and time
always overwritten, color only when supplied; sync_status untouched. -/
def updateBottleRows (db : List Entry) (bottleId : String) (amount : Int)
    (time : String) (color : Option String) : List Entry :=
  db.map fun e =>
    if e.id = bottleId then
      { e with
        amount := amount
        time := time
        color := color.getD e.color }
    else e

/-- DatabaseService.updateBottle: runs the UPDATE and emits a
BOTTLE_UPDATED event carrying bottleId, amount, time, color. -/
def updateBottle (db : List Entry) (bottleId : String) (amount : Int)
    (time : String) (color : Option String) (now : Nat) :
    List Entry × DataChangeEvent :=
  (updateBottleRows db bottleId amount time color,
   ⟨.BOTTLE_UPDATED, .bottleUpdate bottleId amount time color, now⟩)

/-- The row effect of updatePoop's UPDATE statement: time and info
overwritten; color and sync_status untouched. -/
def updatePoopRows (db : List PoopRow) (poopId : String) (time : String)
    (info : Option String) : List PoopRow :=
  db.map fun p =>
    if p.id = poopId then { p with time := time, info := info } else p

/-- DatabaseService.updatePoop: runs the UPDATE and emits an event of
type SYNC_REQUESTED (not POOP_UPDATED) carrying poopId, time, info. -/
def updatePoop (db : List PoopRow) (poopId : String) (time : String)
    (info : Option String) (now : Nat) : List PoopRow × DataChangeEvent :=
  (updatePoopRows db poopId time info,
   ⟨.SYNC_REQUESTED, .poopUpdate poopId time info, now⟩)

/-- The loop body of syncDeletionsFromCloud: walk the snapshot of local
ids; each id absent from the cloud id set is deleted (DELETE WHERE id)
and a BOTTLE_DELETED event emitted. -/
def syncDeletionsLoop (cloudIds : List String) (locals : List String)
    (db : List Entry) (now : Nat) : List Entry × List DataChangeEvent :=
  match locals with
  | [] => (db, [])
  | l :: rest =>
    if cloudIds.contains l then syncDeletionsLoop cloudIds rest db now
    else
      let r := syncDeletionsLoop cloudIds rest (db.filter (fun e => e.id != l)) now
      (r.1, ⟨.BOTTLE_DELETED, .bottleDeleted l, now⟩ :: r.2)

/-- DatabaseService.syncDeletionsFromCloud: deletes every local bottle
whose id is not in the fetched cloud set, emitting a BOTTLE_DELETED event
for each. -/
def syncDeletionsFromCloud (db : List Entry) (cloudBottles : List Api.CloudBottle)
    (now : Nat) : List Entry × List DataChangeEvent :=
  syncDeletionsLoop (cloudBottles.map (fun b => b.id)) (db.map (fun e => e.id)) db now

/-- DatabaseService.syncBottleFromCloud: upsert of one cloud bottle — if
a local row with the id exists and any of amount/time/color differ, they
are overwritten and sync_status set to synced; if no row exists the
bottle is inserted as synced.  No event is emitted. -/
def syncBottleFromCloud (db : List Entry) (b : Api.CloudBottle) : List Entry :=
  match db.find? (fun e => e.id == b.id) with
  | some localBottle =>
    if localBottle.amount != b.amount || localBottle.time != b.time ||
       localBottle.color != b.color then
      db.map (fun e =>
        if e.id = b.id then
          { e with
            amount := b.amount
            time := b.time
            color := b.color
            syncStatus := "synced" }
        else e)
    else db
  | none => db ++ [⟨b.id, b.amount, b.time, b.color, "synced"⟩]

def upsertBottles (db : List Entry) : List Api.CloudBottle → List Entry
  | [] => db
  | b :: rest => upsertBottles (syncBottleFromCloud db b) rest

/-- The bottle half of a syncFromCloud pull: deletion inference over the
fetched window, then the per-record upserts. -/
def bottlesReconcile (db : List Entry) (cloud : List Api.CloudBottle) (now : Nat) :
    List Entry × List DataChangeEvent :=
  let r := syncDeletionsFromCloud db cloud now
  (upsertBottles r.1 cloud, r.2)

/-- The loop body of syncPoopDeletionsFromCloud. -/
def syncPoopDeletionsLoop (cloudIds : List String) (locals : List String)
    (db : List PoopRow) (now : Nat) : List PoopRow × List DataChangeEvent :=
  match locals with
  | [] => (db, [])
  | l :: rest =>
    if cloudIds.contains l then syncPoopDeletionsLoop cloudIds rest db now
    else
      let r := syncPoopDeletionsLoop cloudIds rest (db.filter (fun p => p.id != l)) now
      (r.1, ⟨.POOP_DELETED, .poopDeleted l, now⟩ :: r.2)

/-- DatabaseService.syncPoopDeletionsFromCloud. -/
def syncPoopDeletionsFromCloud (db : List PoopRow) (cloudPoops : List Api.CloudPoop)
    (now : Nat) : List PoopRow × List DataChangeEvent :=
  syncPoopDeletionsLoop (cloudPoops.map (fun p => p.id)) (db.map (fun p => p.id)) db now

/-- DatabaseService.syncPoopFromCloud: upsert of one cloud poop — only
time and info are compared and overwritten (plus sync_status); an absent
row is inserted as synced with the table's default color. -/
def syncPoopFromCloud (db : List PoopRow) (c : Api.CloudPoop) : List PoopRow :=
  match db.find? (fun p => p.id == c.id) with
  | some localPoop =>
    if localPoop.time != c.time || localPoop.info != c.info then
      db.map (fun p =>
        if p.id = c.id then
          { p with time := c.time, info := c.info, syncStatus := "synced" }
        else p)
    else db
  | none => db ++ [⟨c.id, c.time, c.info, "#8B4513", "synced"⟩]

def upsertPoops (db : List PoopRow) : List Api.CloudPoop → List PoopRow
  | [] => db
  | c :: rest => upsertPoops (syncPoopFromCloud db c) rest

/-- The poop half of a syncFromCloud pull. -/
def poopsReconcile (db : List PoopRow) (cloud : List Api.CloudPoop) (now : Nat) :
    List PoopRow × List DataChangeEvent :=
  let r := syncPoopDeletionsFromCloud db cloud now
  (upsertPoops r.1 cloud, r.2)

end Db

end BabySip

/-! ## Round-trip lemmas for the persisted queue encoding -/

namespace BabySip.Sync

theorem decodeItemType_itemTypeStr (t : ItemType) :
    decodeItemType (itemTypeStr t) = some t := by
  cases t <;> rfl

theorem decodeItemAction_itemActionStr (a : ItemAction) :
    decodeItemAction (itemActionStr a) = some a := by
  cases a <;> rfl

theorem decodeData_encodeData (d : SyncData) :
    decodeData (encodeData d) = some d := by
  cases d with
  | bottleFields id amount time color => rfl
  | poopCreateFields id time info color => cases info <;> rfl
  | poopUpdateFields id time info => cases info <;> rfl
  | idOnly id => rfl

theorem decodeItem_encodeItem (i : SyncItem) :
    decodeItem (encodeItem i) = some i := by
  obtain ⟨id, ty, act, data, ts, rc⟩ := i
  have hneg : ¬ ((ts : Int) < 0 ∨ (rc : Int) < 0) := by omega
  cases ty <;> cases act <;>
    simp [encodeItem, decodeItem, jlookup, itemTypeStr, itemActionStr,
      decodeItemType, decodeItemAction, decodeData_encodeData, hneg]

theorem decodeItems_map_encodeItem (q : List SyncItem) :
    decodeItems (q.map encodeItem) = some q := by
  induction q with
  | nil => rfl
  | cons i rest ih => simp [decodeItems, decodeItem_encodeItem, ih]

theorem decodeQueue_encodeQueue (q : List SyncItem) :
    decodeQueue (encodeQueue q) = some q := by
  simp [decodeQueue, encodeQueue, decodeItems_map_encodeItem]

end BabySip.Sync

/-! ## Identifier generator lemmas and claims -/

namespace BabySip

theorem mkId_data (ts : Nat) (u d : String) :
    (mkId ts u d).data = (toString ts).data ++ '_' :: (u.data ++ '_' :: d.data) := by
  simp [mkId]

theorem mkId_inj_uuid {t1 t2 : Nat} {u1 u2 d : String}
    (hlen : u1.length = u2.length) (h : mkId t1 u1 d = mkId t2 u2 d) :
    u1 = u2 := by
  have hd := congrArg String.data h
  rw [mkId_data, mkId_data] at hd
  have h1 : ((toString t1).data ++ ['_']) ++ (u1.data ++ '_' :: d.data)
      = ((toString t2).data ++ ['_']) ++ (u2.data ++ '_' :: d.data) := by
    simpa [List.append_assoc] using hd
  have hdl : u1.data.length = u2.data.length := hlen
  have hlen1 : (u1.data ++ '_' :: d.data).length
      = (u2.data ++ '_' :: d.data).length := by
    simp [hdl]
  have h2 := (List.append_inj' h1 hlen1).2
  exact String.ext (List.append_inj h2 hdl).1

theorem generateUniqueId_snd (st : IDState) (now : Nat) (u d : String) :
    ∃ t, (generateUniqueId st now u d).2 = mkId t u d := by
  unfold generateUniqueId
  by_cases h : now = st.lastTimestamp
  · exact ⟨now + (st.counter + 1), by simp [h]⟩
  · exact ⟨now, by simp [h]⟩

theorem genRun_mem {dev s : String} :
    ∀ {calls : List (Nat × String)} {st : IDState}, s ∈ genRun st dev calls →
      ∃ t u, u ∈ calls.map Prod.snd ∧ s = mkId t u dev := by
  intro calls
  induction calls with
  | nil => intro st h; simp [genRun] at h
  | cons c rest ih =>
    intro st h
    obtain ⟨now, uuid⟩ := c
    simp only [genRun, List.mem_cons] at h
    rcases h with h | h
    · obtain ⟨t, ht⟩ := generateUniqueId_snd st now uuid dev
      exact ⟨t, uuid, by simp, h.trans ht⟩
    · obtain ⟨t, u, hu, hs⟩ := ih h
      refine ⟨t, u, ?_, hs⟩
      simp only [List.map_cons, List.mem_cons]
      exact Or.inr hu

/-- C6 (counterexample): the claim that rapid sequential ids are always
pairwise distinct fails: `lastTimestamp` is not advanced when the counter
artificially increments the timestamp, so a call in the next real
millisecond reuses an already-emitted timestamp component, and when the
Math.random-based uuid token repeats, two identical id strings result.
Here calls at milliseconds 5, 5, 6 with a repeated uuid yield equal
second and third ids. -/
theorem claim6_counterexample :
    ¬ (genRun ⟨0, 0⟩ "device_1700_x"
        [(5, "aaaaaaaa-aaaa-4aaa-8aaa-aaaaaaaaaaaa"),
         (5, "aaaaaaaa-aaaa-4aaa-8aaa-aaaaaaaaaaaa"),
         (6, "aaaaaaaa-aaaa-4aaa-8aaa-aaaaaaaaaaaa")]).Nodup := by
  decide

/-- C6 (amended): for N rapid sequential generateUniqueId calls on one
device, the id strings are pairwise distinct provided the N random uuid
tokens are pairwise distinct (each having generateUUID's fixed 36
character length); the internal counter alone does not guarantee this,
since an artificially incremented timestamp can coincide with a later
call's real timestamp. -/
theorem claim6_unique_ids_amended (st : IDState) (dev : String)
    (calls : List (Nat × String))
    (hlen : ∀ u ∈ calls.map Prod.snd, u.length = 36)
    (hnd : (calls.map Prod.snd).Nodup) :
    (genRun st dev calls).Nodup := by
  induction calls generalizing st with
  | nil => simp [genRun]
  | cons c rest ih =>
    obtain ⟨now, uuid⟩ := c
    simp only [genRun]
    rw [List.nodup_cons]
    rw [List.map_cons, List.nodup_cons] at hnd
    constructor
    · intro hmem
      obtain ⟨t, u, hu, hs⟩ := genRun_mem hmem
      obtain ⟨t0, ht0⟩ := generateUniqueId_snd st now uuid dev
      rw [ht0] at hs
      have hu36 : u.length = 36 :=
        hlen u (by rw [List.map_cons]; exact List.mem_cons_of_mem _ hu)
      have huuid36 : uuid.length = 36 :=
        hlen uuid (by rw [List.map_cons]; exact List.mem_cons_self _ _)
      have heq : uuid = u := mkId_inj_uuid (by rw [huuid36, hu36]) hs
      exact hnd.1 (heq ▸ hu)
    · exact ih _
        (fun u hu => hlen u (by rw [List.map_cons]; exact List.mem_cons_of_mem _ hu))
        hnd.2

/-- Witness for C6 (amended): three calls with distinct 36-character uuid
tokens produce pairwise distinct ids. -/
theorem claim6_unique_ids_amended_witness :
    ((∀ u ∈ ([(5, "aaaaaaaa-aaaa-4aaa-8aaa-aaaaaaaaaaaa"),
              (5, "bbbbbbbb-bbbb-4bbb-8bbb-bbbbbbbbbbbb"),
              (6, "cccccccc-cccc-4ccc-8ccc-cccccccccccc")] :
        List (Nat × String)).map Prod.snd, u.length = 36) ∧
      (([(5, "aaaaaaaa-aaaa-4aaa-8aaa-aaaaaaaaaaaa"),
         (5, "bbbbbbbb-bbbb-4bbb-8bbb-bbbbbbbbbbbb"),
         (6, "cccccccc-cccc-4ccc-8ccc-cccccccccccc")] :
        List (Nat × String)).map Prod.snd).Nodup) ∧
    (genRun ⟨0, 0⟩ "device_1700_x"
      [(5, "aaaaaaaa-aaaa-4aaa-8aaa-aaaaaaaaaaaa"),
       (5, "bbbbbbbb-bbbb-4bbb-8bbb-bbbbbbbbbbbb"),
       (6, "cccccccc-cccc-4ccc-8ccc-cccccccccccc")]).Nodup :=
  ⟨⟨by decide, by decide⟩,
   claim6_unique_ids_amended ⟨0, 0⟩ "device_1700_x"
     [(5, "aaaaaaaa-aaaa-4aaa-8aaa-aaaaaaaaaaaa"),
      (5, "bbbbbbbb-bbbb-4bbb-8bbb-bbbbbbbbbbbb"),
      (6, "cccccccc-cccc-4ccc-8ccc-cccccccccccc")] (by decide) (by decide)⟩

/-- C2: Loop prevention: a Real-Time Message whose deviceId equals the
receiving device's own id is never acted upon, regardless of its type:
RealTimeSyncService.handleMessage invokes no registered message listener
for it, and SyncService.handleRealTimeMessage triggers no sync or local
mutation for it. -/
theorem claim2_loop_prevention (dev : String) (listeners : List Nat)
    (m : Rts.RTMessage) :
    Rts.handleMessage (some dev) listeners { m with deviceId := some dev } = [] ∧
    Rts.handleRealTimeMessage dev { m with deviceId := some dev } = [] := by
  constructor
  · simp [Rts.handleMessage, Rts.strictEqIds]
  · simp [Rts.handleRealTimeMessage]

/-- C8 (counterexample): DatabaseService.updatePoop emits an event of
type SYNC_REQUESTED rather than POOP_UPDATED, refuting the claim that a
successful diaper update emits a POOP_UPDATED change event. -/
theorem claim8_counterexample :
    (Db.updatePoop [⟨"p1", "t0", none, "#8B4513", "pending"⟩] "p1" "t1"
        (some "note") 7).2.type ≠ Db.EventType.POOP_UPDATED := by
  decide

/-- C8 (amended): a successful update overwrites only the supplied
mutable fields of the matching row and leaves sync_status (and, for
diapers, color) untouched; updateBottle emits a BOTTLE_UPDATED event,
but updatePoop emits a SYNC_REQUESTED event instead of POOP_UPDATED. -/
theorem claim8_update_events_amended (db : List Db.Entry) (bottleId : String)
    (amount : Int) (time : String) (color : Option String)
    (pdb : List Db.PoopRow) (poopId ptime : String) (pinfo : Option String)
    (now : Nat) :
    (∀ e' ∈ (Db.updateBottle db bottleId amount time color now).1,
      ∃ e, e ∈ db ∧ e'.id = e.id ∧ e'.syncStatus = e.syncStatus ∧
        (e.id ≠ bottleId → e' = e) ∧
        (e.id = bottleId → e'.amount = amount ∧ e'.time = time ∧
          e'.color = color.getD e.color)) ∧
    (Db.updateBottle db bottleId amount time color now).2.type =
      Db.EventType.BOTTLE_UPDATED ∧
    (Db.updateBottle db bottleId amount time color now).2.data =
      Db.EventData.bottleUpdate bottleId amount time color ∧
    (∀ p' ∈ (Db.updatePoop pdb poopId ptime pinfo now).1,
      ∃ p, p ∈ pdb ∧ p'.id = p.id ∧ p'.syncStatus = p.syncStatus ∧
        p'.color = p.color ∧
        (p.id ≠ poopId → p' = p) ∧
        (p.id = poopId → p'.time = ptime ∧ p'.info = pinfo)) ∧
    (Db.updatePoop pdb poopId ptime pinfo now).2.type =
      Db.EventType.SYNC_REQUESTED ∧
    (Db.updatePoop pdb poopId ptime pinfo now).2.data =
      Db.EventData.poopUpdate poopId ptime pinfo := by
  refine ⟨?_, rfl, rfl, ?_, rfl, rfl⟩
  · intro e' he'
    simp only [Db.updateBottle, Db.updateBottleRows, List.mem_map] at he'
    obtain ⟨e, he, rfl⟩ := he'
    by_cases h : e.id = bottleId
    · exact ⟨e, he, by simp [h], by simp [h], fun hne => absurd h hne,
        fun _ => by simp [h]⟩
    · exact ⟨e, he, by simp [h], by simp [h], fun _ => by simp [h],
        fun heq => absurd heq h⟩
  · intro p' hp'
    simp only [Db.updatePoop, Db.updatePoopRows, List.mem_map] at hp'
    obtain ⟨p, hp, rfl⟩ := hp'
    by_cases h : p.id = poopId
    · exact ⟨p, hp, by simp [h], by simp [h], by simp [h],
        fun hne => absurd h hne, fun _ => by simp [h]⟩
    · exact ⟨p, hp, by simp [h], by simp [h], by simp [h],
        fun _ => by simp [h], fun heq => absurd heq h⟩

/-- Witness for C8 (amended): concrete single-row updates, checking the
emitted event types. -/
theorem claim8_update_events_amended_witness :
    (Db.updateBottle [⟨"b1", 100, "T0", "#6366F1", "synced"⟩] "b1" 120 "T1"
        (some "#FF0000") 3).2.type = Db.EventType.BOTTLE_UPDATED ∧
    (Db.updatePoop [⟨"p1", "T0", none, "#8B4513", "pending"⟩] "p1" "T1"
        (some "n") 3).2.type = Db.EventType.SYNC_REQUESTED :=
  ⟨(claim8_update_events_amended [⟨"b1", 100, "T0", "#6366F1", "synced"⟩]
      "b1" 120 "T1" (some "#FF0000") [⟨"p1", "T0", none, "#8B4513", "pending"⟩]
      "p1" "T1" (some "n") 3).2.1,
   (claim8_update_events_amended [⟨"b1", 100, "T0", "#6366F1", "synced"⟩]
      "b1" 120 "T1" (some "#FF0000") [⟨"p1", "T0", none, "#8B4513", "pending"⟩]
      "p1" "T1" (some "n") 3).2.2.2.2.1⟩

end BabySip

/-! ## Real-Time Channel reconnection claims -/

namespace BabySip

/-- C7 (counterexample): a run of six non-clean closes in which every
reconnect attempt produces a socket that closes again: the recorded
failure counter is never incremented (it only moves when an attempt
throws), so six reconnects are scheduled — more than the claimed maximum
of five — and every delay is 1000 ms, never doubled. -/
theorem claim7_counterexample :
    (Rts.rtRun Rts.RTStatus.start
      [.closed 1006, .attempt (.closedAgain 1006), .attempt (.closedAgain 1006),
       .attempt (.closedAgain 1006), .attempt (.closedAgain 1006),
       .attempt (.closedAgain 1006)]).2 =
      [1000, 1000, 1000, 1000, 1000, 1000] ∧
    ¬ ((Rts.rtRun Rts.RTStatus.start
      [.closed 1006, .attempt (.closedAgain 1006), .attempt (.closedAgain 1006),
       .attempt (.closedAgain 1006), .attempt (.closedAgain 1006),
       .attempt (.closedAgain 1006)]).2.length ≤ 5) := by
  constructor <;> decide

/-- C7 (amended): after a non-clean close a reconnect is scheduled after
1000 * 2 ^ reconnectAttempts ms while reconnectAttempts < 5, and once
reconnectAttempts reaches 5 the persistent error is reported and nothing
is scheduled; a clean close schedules nothing.  reconnectAttempts,
however, is incremented only by an attempt that fails with a thrown
exception (and reset by a successful open), so the five-attempt ceiling
and the doubling delays are realized only in runs whose attempts fail by
throwing — as in the concrete run below — and not in runs whose attempts
fail by the new socket closing again. -/
theorem claim7_reconnect_amended :
    (∀ (st : Rts.RTStatus) (code : Nat), code ≠ 1000 →
      st.reconnectAttempts < Rts.maxReconnectAttempts →
      Rts.handleDisconnection st code =
        ({ st with isConnected := false },
         some (Rts.reconnectDelay * 2 ^ st.reconnectAttempts))) ∧
    (∀ (st : Rts.RTStatus) (code : Nat), code ≠ 1000 →
      Rts.maxReconnectAttempts ≤ st.reconnectAttempts →
      Rts.handleDisconnection st code =
        ({ st with isConnected := false, error := some Rts.maxAttemptsError },
         none)) ∧
    (∀ st : Rts.RTStatus,
      Rts.handleDisconnection st 1000 = ({ st with isConnected := false }, none)) ∧
    ((Rts.rtRun Rts.RTStatus.start
        [.closed 1006, .attempt .threw, .closed 1006, .attempt .threw,
         .closed 1006, .attempt .threw, .closed 1006, .attempt .threw,
         .closed 1006, .attempt .threw, .closed 1006]).2 =
        [1000, 2000, 4000, 8000, 16000] ∧
     (Rts.rtRun Rts.RTStatus.start
        [.closed 1006, .attempt .threw, .closed 1006, .attempt .threw,
         .closed 1006, .attempt .threw, .closed 1006, .attempt .threw,
         .closed 1006, .attempt .threw, .closed 1006]).1.error =
        some Rts.maxAttemptsError) := by
  refine ⟨?_, ?_, ?_, by decide, by decide⟩
  · intro st code hc hlt
    simp [Rts.handleDisconnection, hc, hlt]
  · intro st code hc hge
    simp [Rts.handleDisconnection, hc, Nat.not_lt.mpr hge]
  · intro st
    simp [Rts.handleDisconnection]

/-- Witness for C7 (amended): a non-clean close with two recorded
failures schedules a reconnect after 4000 ms. -/
theorem claim7_reconnect_amended_witness :
    ((1006 : Nat) ≠ 1000 ∧
      (⟨true, false, 0, none, none, 2⟩ : Rts.RTStatus).reconnectAttempts <
        Rts.maxReconnectAttempts) ∧
    Rts.handleDisconnection ⟨true, false, 0, none, none, 2⟩ 1006 =
      (⟨false, false, 0, none, none, 2⟩, some 4000) :=
  ⟨⟨by decide, by decide⟩,
   claim7_reconnect_amended.1 ⟨true, false, 0, none, none, 2⟩ 1006
     (by decide) (by decide)⟩

end BabySip

/-! ## Deletion-inference lemmas and claim C1 -/

namespace BabySip.Db

theorem mem_syncDeletionsLoop_fst (cIds : List String) (now : Nat) :
    ∀ (ls : List String) (db : List Entry) (e : Entry),
      e ∈ (syncDeletionsLoop cIds ls db now).1 ↔
        e ∈ db ∧ (e.id ∈ ls → e.id ∈ cIds) := by
  intro ls
  induction ls with
  | nil => intro db e; simp [syncDeletionsLoop]
  | cons l rest ih =>
    intro db e
    by_cases hc : l ∈ cIds
    · have hstep : (syncDeletionsLoop cIds (l :: rest) db now).1
          = (syncDeletionsLoop cIds rest db now).1 := by
        simp [syncDeletionsLoop, hc]
      rw [hstep, ih]
      constructor
      · rintro ⟨hdb, himp⟩
        refine ⟨hdb, fun hm => ?_⟩
        rcases List.mem_cons.mp hm with h | h
        · exact h ▸ hc
        · exact himp h
      · rintro ⟨hdb, himp⟩
        exact ⟨hdb, fun hm => himp (List.mem_cons_of_mem _ hm)⟩
    · have hstep : (syncDeletionsLoop cIds (l :: rest) db now).1
          = (syncDeletionsLoop cIds rest (db.filter (fun e => e.id != l)) now).1 := by
        simp [syncDeletionsLoop, hc]
      rw [hstep, ih]
      simp only [List.mem_filter, bne_iff_ne, ne_eq]
      constructor
      · rintro ⟨⟨hdb, hne⟩, himp⟩
        refine ⟨hdb, fun hm => ?_⟩
        rcases List.mem_cons.mp hm with h | h
        · exact absurd h (by simpa using hne)
        · exact himp h
      · rintro ⟨hdb, himp⟩
        have hne : ¬ e.id = l := by
          intro h
          exact hc (h ▸ himp (by rw [h]; exact List.mem_cons_self l rest))
        exact ⟨⟨hdb, by simpa using hne⟩,
          fun hm => himp (List.mem_cons_of_mem _ hm)⟩

theorem mem_syncDeletionsLoop_snd (cIds : List String) (now : Nat) :
    ∀ (ls : List String) (db : List Entry) (i : String),
      i ∈ ls → i ∉ cIds →
      (⟨.BOTTLE_DELETED, .bottleDeleted i, now⟩ : DataChangeEvent) ∈
        (syncDeletionsLoop cIds ls db now).2 := by
  intro ls
  induction ls with
  | nil => intro db i h _; simp at h
  | cons l rest ih =>
    intro db i hmem hnc
    by_cases hc : l ∈ cIds
    · have hstep : (syncDeletionsLoop cIds (l :: rest) db now).2
          = (syncDeletionsLoop cIds rest db now).2 := by
        simp [syncDeletionsLoop, hc]
      rw [hstep]
      rcases List.mem_cons.mp hmem with h | h
      · exact absurd (h ▸ hc) hnc
      · exact ih db i h hnc
    · have hstep : (syncDeletionsLoop cIds (l :: rest) db now).2
          = ⟨.BOTTLE_DELETED, .bottleDeleted l, now⟩ ::
            (syncDeletionsLoop cIds rest (db.filter (fun e => e.id != l)) now).2 := by
        simp [syncDeletionsLoop, hc]
      rw [hstep]
      rcases List.mem_cons.mp hmem with h | h
      · subst h
        exact List.mem_cons_self _ _
      · exact List.mem_cons_of_mem _ (ih _ i h hnc)

theorem ids_map_bottleUpdate (db : List Entry) (b : Api.CloudBottle) :
    (db.map (fun e' =>
      if e'.id = b.id then
        { e' with
          amount := b.amount
          time := b.time
          color := b.color
          syncStatus := "synced" }
      else e')).map (fun e => e.id) = db.map (fun e => e.id) := by
  rw [List.map_map]
  apply List.map_congr_left
  intro e' _
  by_cases h : e'.id = b.id <;> simp [h]

theorem syncBottleFromCloud_ids_of_mem {db : List Entry} {b : Api.CloudBottle}
    (h : b.id ∈ db.map (fun e => e.id)) :
    (syncBottleFromCloud db b).map (fun e => e.id) = db.map (fun e => e.id) := by
  cases hf : db.find? (fun e => e.id == b.id) with
  | none =>
    exfalso
    obtain ⟨e, he, heid⟩ := List.mem_map.mp h
    have hnone := List.find?_eq_none.mp hf e he
    simp [heid] at hnone
  | some e =>
    simp only [syncBottleFromCloud, hf]
    split
    · exact ids_map_bottleUpdate db b
    · rfl

theorem syncBottleFromCloud_ids_of_not_mem {db : List Entry} {b : Api.CloudBottle}
    (h : b.id ∉ db.map (fun e => e.id)) :
    (syncBottleFromCloud db b).map (fun e => e.id)
      = db.map (fun e => e.id) ++ [b.id] := by
  cases hf : db.find? (fun e => e.id == b.id) with
  | none =>
    simp only [syncBottleFromCloud, hf]
    simp
  | some e =>
    exfalso
    have heid : e.id = b.id := by
      have hp := List.find?_some hf
      simpa using hp
    exact h (heid ▸ List.mem_map_of_mem _ (List.mem_of_find?_eq_some hf))

theorem mem_ids_syncBottleFromCloud (db : List Entry) (b : Api.CloudBottle)
    (i : String) :
    i ∈ (syncBottleFromCloud db b).map (fun e => e.id) ↔
      (i ∈ db.map (fun e => e.id) ∨ i = b.id) := by
  by_cases hb : b.id ∈ db.map (fun e => e.id)
  · rw [syncBottleFromCloud_ids_of_mem hb]
    constructor
    · exact Or.inl
    · rintro (h | rfl)
      · exact h
      · exact hb
  · rw [syncBottleFromCloud_ids_of_not_mem hb]
    simp

theorem mem_ids_upsertBottles :
    ∀ (cs : List Api.CloudBottle) (db : List Entry) (i : String),
      i ∈ (upsertBottles db cs).map (fun e => e.id) ↔
        (i ∈ db.map (fun e => e.id) ∨ i ∈ cs.map (fun b => b.id)) := by
  intro cs
  induction cs with
  | nil => intro db i; simp [upsertBottles]
  | cons b rest ih =>
    intro db i
    simp only [upsertBottles]
    rw [ih, mem_ids_syncBottleFromCloud]
    simp only [List.map_cons, List.mem_cons]
    tauto

end BabySip.Db

/-! ## Poop deletion-inference lemmas -/

namespace BabySip.Db

theorem mem_syncPoopDeletionsLoop_fst (cIds : List String) (now : Nat) :
    ∀ (ls : List String) (db : List PoopRow) (p : PoopRow),
      p ∈ (syncPoopDeletionsLoop cIds ls db now).1 ↔
        p ∈ db ∧ (p.id ∈ ls → p.id ∈ cIds) := by
  intro ls
  induction ls with
  | nil => intro db p; simp [syncPoopDeletionsLoop]
  | cons l rest ih =>
    intro db p
    by_cases hc : l ∈ cIds
    · have hstep : (syncPoopDeletionsLoop cIds (l :: rest) db now).1
          = (syncPoopDeletionsLoop cIds rest db now).1 := by
        simp [syncPoopDeletionsLoop, hc]
      rw [hstep, ih]
      constructor
      · rintro ⟨hdb, himp⟩
        refine ⟨hdb, fun hm => ?_⟩
        rcases List.mem_cons.mp hm with h | h
        · exact h ▸ hc
        · exact himp h
      · rintro ⟨hdb, himp⟩
        exact ⟨hdb, fun hm => himp (List.mem_cons_of_mem _ hm)⟩
    · have hstep : (syncPoopDeletionsLoop cIds (l :: rest) db now).1
          = (syncPoopDeletionsLoop cIds rest (db.filter (fun p => p.id != l)) now).1 := by
        simp [syncPoopDeletionsLoop, hc]
      rw [hstep, ih]
      simp only [List.mem_filter, bne_iff_ne, ne_eq]
      constructor
      · rintro ⟨⟨hdb, hne⟩, himp⟩
        refine ⟨hdb, fun hm => ?_⟩
        rcases List.mem_cons.mp hm with h | h
        · exact absurd h (by simpa using hne)
        · exact himp h
      · rintro ⟨hdb, himp⟩
        have hne : ¬ p.id = l := by
          intro h
          exact hc (h ▸ himp (by rw [h]; exact List.mem_cons_self l rest))
        exact ⟨⟨hdb, by simpa using hne⟩,
          fun hm => himp (List.mem_cons_of_mem _ hm)⟩

theorem mem_syncPoopDeletionsLoop_snd (cIds : List String) (now : Nat) :
    ∀ (ls : List String) (db : List PoopRow) (i : String),
      i ∈ ls → i ∉ cIds →
      (⟨.POOP_DELETED, .poopDeleted i, now⟩ : DataChangeEvent) ∈
        (syncPoopDeletionsLoop cIds ls db now).2 := by
  intro ls
  induction ls with
  | nil => intro db i h _; simp at h
  | cons l rest ih =>
    intro db i hmem hnc
    by_cases hc : l ∈ cIds
    · have hstep : (syncPoopDeletionsLoop cIds (l :: rest) db now).2
          = (syncPoopDeletionsLoop cIds rest db now).2 := by
        simp [syncPoopDeletionsLoop, hc]
      rw [hstep]
      rcases List.mem_cons.mp hmem with h | h
      · exact absurd (h ▸ hc) hnc
      · exact ih db i h hnc
    · have hstep : (syncPoopDeletionsLoop cIds (l :: rest) db now).2
          = ⟨.POOP_DELETED, .poopDeleted l, now⟩ ::
            (syncPoopDeletionsLoop cIds rest (db.filter (fun p => p.id != l)) now).2 := by
        simp [syncPoopDeletionsLoop, hc]
      rw [hstep]
      rcases List.mem_cons.mp hmem with h | h
      · subst h
        exact List.mem_cons_self _ _
      · exact List.mem_cons_of_mem _ (ih _ i h hnc)

theorem ids_map_poopUpdate (db : List PoopRow) (c : Api.CloudPoop) :
    (db.map (fun p' =>
      if p'.id = c.id then
        { p' with
          time := c.time
          info := c.info
          syncStatus := "synced" }
      else p')).map (fun p => p.id) = db.map (fun p => p.id) := by
  rw [List.map_map]
  apply List.map_congr_left
  intro p' _
  by_cases h : p'.id = c.id <;> simp [h]

theorem syncPoopFromCloud_ids_of_mem {db : List PoopRow} {c : Api.CloudPoop}
    (h : c.id ∈ db.map (fun p => p.id)) :
    (syncPoopFromCloud db c).map (fun p => p.id) = db.map (fun p => p.id) := by
  cases hf : db.find? (fun p => p.id == c.id) with
  | none =>
    exfalso
    obtain ⟨p, hp, hpid⟩ := List.mem_map.mp h
    have hnone := List.find?_eq_none.mp hf p hp
    simp [hpid] at hnone
  | some p =>
    simp only [syncPoopFromCloud, hf]
    split
    · exact ids_map_poopUpdate db c
    · rfl

theorem syncPoopFromCloud_ids_of_not_mem {db : List PoopRow} {c : Api.CloudPoop}
    (h : c.id ∉ db.map (fun p => p.id)) :
    (syncPoopFromCloud db c).map (fun p => p.id)
      = db.map (fun p => p.id) ++ [c.id] := by
  cases hf : db.find? (fun p => p.id == c.id) with
  | none =>
    simp only [syncPoopFromCloud, hf]
    simp
  | some p =>
    exfalso
    have hpid : p.id = c.id := by
      have hp := List.find?_some hf
      simpa using hp
    exact h (hpid ▸ List.mem_map_of_mem _ (List.mem_of_find?_eq_some hf))

theorem mem_ids_syncPoopFromCloud (db : List PoopRow) (c : Api.CloudPoop)
    (i : String) :
    i ∈ (syncPoopFromCloud db c).map (fun p => p.id) ↔
      (i ∈ db.map (fun p => p.id) ∨ i = c.id) := by
  by_cases hb : c.id ∈ db.map (fun p => p.id)
  · rw [syncPoopFromCloud_ids_of_mem hb]
    constructor
    · exact Or.inl
    · rintro (h | rfl)
      · exact h
      · exact hb
  · rw [syncPoopFromCloud_ids_of_not_mem hb]
    simp

theorem mem_ids_upsertPoops :
    ∀ (cs : List Api.CloudPoop) (db : List PoopRow) (i : String),
      i ∈ (upsertPoops db cs).map (fun p => p.id) ↔
        (i ∈ db.map (fun p => p.id) ∨ i ∈ cs.map (fun c => c.id)) := by
  intro cs
  induction cs with
  | nil => intro db i; simp [upsertPoops]
  | cons c rest ih =>
    intro db i
    simp only [upsertPoops]
    rw [ih, mem_ids_syncPoopFromCloud]
    simp only [List.map_cons, List.mem_cons]
    tauto

end BabySip.Db

/-! ## Claim C1 -/

namespace BabySip.Db

/-- C1: Deletion inference (bounded window): in a syncFromCloud
reconciliation pass, every local record id not present in the fetched
remote window is deleted locally with a corresponding deleted-change
event, and after the pass the local store contains exactly the ids of
the fetched remote set — for feeding records (BOTTLE_DELETED) and diaper
records (POOP_DELETED) alike. -/
theorem claim1_deletion_inference (db : List Entry) (cloud : List Api.CloudBottle)
    (pdb : List PoopRow) (pcloud : List Api.CloudPoop) (now : Nat) :
    (∀ i ∈ db.map (fun e => e.id), i ∉ cloud.map (fun b => b.id) →
      (⟨.BOTTLE_DELETED, .bottleDeleted i, now⟩ : DataChangeEvent) ∈
        (bottlesReconcile db cloud now).2) ∧
    (∀ i, i ∈ (bottlesReconcile db cloud now).1.map (fun e => e.id) ↔
      i ∈ cloud.map (fun b => b.id)) ∧
    (∀ i ∈ pdb.map (fun p => p.id), i ∉ pcloud.map (fun c => c.id) →
      (⟨.POOP_DELETED, .poopDeleted i, now⟩ : DataChangeEvent) ∈
        (poopsReconcile pdb pcloud now).2) ∧
    (∀ i, i ∈ (poopsReconcile pdb pcloud now).1.map (fun p => p.id) ↔
      i ∈ pcloud.map (fun c => c.id)) := by
  refine ⟨?_, ?_, ?_, ?_⟩
  · intro i hi hnc
    exact mem_syncDeletionsLoop_snd _ now _ db i hi hnc
  · intro i
    show i ∈ (upsertBottles (syncDeletionsFromCloud db cloud now).1 cloud).map
        (fun e => e.id) ↔ _
    rw [mem_ids_upsertBottles]
    constructor
    · rintro (h | h)
      · obtain ⟨e, he, rfl⟩ := List.mem_map.mp h
        have hin := (mem_syncDeletionsLoop_fst _ now _ db e).mp he
        exact hin.2 (List.mem_map_of_mem _ hin.1)
      · exact h
    · intro h
      exact Or.inr h
  · intro i hi hnc
    exact mem_syncPoopDeletionsLoop_snd _ now _ pdb i hi hnc
  · intro i
    show i ∈ (upsertPoops (syncPoopDeletionsFromCloud pdb pcloud now).1 pcloud).map
        (fun p => p.id) ↔ _
    rw [mem_ids_upsertPoops]
    constructor
    · rintro (h | h)
      · obtain ⟨p, hp, rfl⟩ := List.mem_map.mp h
        have hin := (mem_syncPoopDeletionsLoop_fst _ now _ pdb p).mp hp
        exact hin.2 (List.mem_map_of_mem _ hin.1)
      · exact h
    · intro h
      exact Or.inr h

/-- Witness for C1: local store {A, B, C} against a remote window {A, C}:
B is deleted with a BOTTLE_DELETED event, A is still present, B is gone. -/
theorem claim1_deletion_inference_witness :
    (("B" ∈ ([⟨"A", 100, "T1", "#6366F1", "synced"⟩,
              ⟨"B", 110, "T2", "#6366F1", "synced"⟩,
              ⟨"C", 120, "T3", "#6366F1", "synced"⟩] : List Entry).map
        (fun e => e.id)) ∧
      "B" ∉ ([⟨"A", 100, "T1", "#6366F1"⟩, ⟨"C", 120, "T3", "#6366F1"⟩] :
        List Api.CloudBottle).map (fun b => b.id)) ∧
    (⟨.BOTTLE_DELETED, .bottleDeleted "B", 0⟩ : DataChangeEvent) ∈
      (bottlesReconcile
        [⟨"A", 100, "T1", "#6366F1", "synced"⟩,
         ⟨"B", 110, "T2", "#6366F1", "synced"⟩,
         ⟨"C", 120, "T3", "#6366F1", "synced"⟩]
        [⟨"A", 100, "T1", "#6366F1"⟩, ⟨"C", 120, "T3", "#6366F1"⟩] 0).2 ∧
    "A" ∈ (bottlesReconcile
        [⟨"A", 100, "T1", "#6366F1", "synced"⟩,
         ⟨"B", 110, "T2", "#6366F1", "synced"⟩,
         ⟨"C", 120, "T3", "#6366F1", "synced"⟩]
        [⟨"A", 100, "T1", "#6366F1"⟩, ⟨"C", 120, "T3", "#6366F1"⟩] 0).1.map
      (fun e => e.id) ∧
    "B" ∉ (bottlesReconcile
        [⟨"A", 100, "T1", "#6366F1", "synced"⟩,
         ⟨"B", 110, "T2", "#6366F1", "synced"⟩,
         ⟨"C", 120, "T3", "#6366F1", "synced"⟩]
        [⟨"A", 100, "T1", "#6366F1"⟩, ⟨"C", 120, "T3", "#6366F1"⟩] 0).1.map
      (fun e => e.id) :=
  ⟨⟨by decide, by decide⟩,
   (claim1_deletion_inference
      [⟨"A", 100, "T1", "#6366F1", "synced"⟩,
       ⟨"B", 110, "T2", "#6366F1", "synced"⟩,
       ⟨"C", 120, "T3", "#6366F1", "synced"⟩]
      [⟨"A", 100, "T1", "#6366F1"⟩, ⟨"C", 120, "T3", "#6366F1"⟩] [] [] 0).1
     "B" (by decide) (by decide),
   ((claim1_deletion_inference
      [⟨"A", 100, "T1", "#6366F1", "synced"⟩,
       ⟨"B", 110, "T2", "#6366F1", "synced"⟩,
       ⟨"C", 120, "T3", "#6366F1", "synced"⟩]
      [⟨"A", 100, "T1", "#6366F1"⟩, ⟨"C", 120, "T3", "#6366F1"⟩] [] [] 0).2.1
     "A").mpr (by decide),
   fun hmem =>
     (by decide : ¬ ("B" ∈ ([⟨"A", 100, "T1", "#6366F1"⟩,
         ⟨"C", 120, "T3", "#6366F1"⟩] : List Api.CloudBottle).map (fun b => b.id)))
       (((claim1_deletion_inference
          [⟨"A", 100, "T1", "#6366F1", "synced"⟩,
           ⟨"B", 110, "T2", "#6366F1", "synced"⟩,
           ⟨"C", 120, "T3", "#6366F1", "synced"⟩]
          [⟨"A", 100, "T1", "#6366F1"⟩, ⟨"C", 120, "T3", "#6366F1"⟩] [] [] 0).2.1
         "B").mp hmem)⟩

end BabySip.Db

/-! ## Sync queue drain lemmas -/

namespace BabySip.Sync

theorem processItem_id (a : SyncItem → Bool) (i : SyncItem) :
    ((processItem a i).1).id = i.id := by
  by_cases h : a i = true <;> simp [processItem, h]

theorem processItem_snd (a : SyncItem → Bool) (i : SyncItem) :
    (processItem a i).2 = (a i || decide (3 ≤ i.retryCount + 1)) := by
  by_cases h : a i = true <;> simp [processItem, h]

theorem processPass_fst (a : SyncItem → Bool) :
    ∀ l : List SyncItem,
      (processPass a l).1 = l.map (fun i => (processItem a i).1) := by
  intro l
  induction l with
  | nil => rfl
  | cons i rest ih => simp [processPass, ih]

theorem processPass_ids (a : SyncItem → Bool) (l : List SyncItem) :
    (processPass a l).1.map (fun i => i.id) = l.map (fun i => i.id) := by
  rw [processPass_fst, List.map_map]
  apply List.map_congr_left
  intro i _
  simp [Function.comp, processItem_id]

theorem mem_processPass_snd (a : SyncItem → Bool) :
    ∀ (l : List SyncItem) (s : String),
      s ∈ (processPass a l).2 ↔
        ∃ i, i ∈ l ∧ i.id = s ∧
          (a i = true ∨ (a i = false ∧ 3 ≤ i.retryCount + 1)) := by
  intro l
  induction l with
  | nil => intro s; simp [processPass]
  | cons i rest ih =>
    intro s
    simp only [processPass]
    rw [List.mem_append, ih]
    constructor
    · rintro (h | ⟨j, hj, hjid, hcond⟩)
      · have hp : (processItem a i).2 = true := by
          cases hpi : (processItem a i).2
          · rw [hpi] at h; simp at h
          · rfl
        have hs : s = i.id := by
          rw [if_pos hp] at h
          simpa using h
        refine ⟨i, List.mem_cons_self _ _, hs.symm, ?_⟩
        rw [processItem_snd] at hp
        cases hai : a i with
        | true => exact Or.inl rfl
        | false =>
          rw [hai] at hp
          simp at hp
          exact Or.inr ⟨rfl, by omega⟩
      · exact ⟨j, List.mem_cons_of_mem _ hj, hjid, hcond⟩
    · rintro ⟨j, hj, hjid, hcond⟩
      rcases List.mem_cons.mp hj with heq | hj'
      · subst heq
        left
        have hp : (processItem a j).2 = true := by
          rw [processItem_snd]
          rcases hcond with h | ⟨h1, h2⟩
          · simp [h]
          · simp [h2]
        rw [if_pos hp]
        simpa using hjid.symm
      · exact Or.inr ⟨j, hj', hjid, hcond⟩

theorem contains_false_of_not_mem {l : List String} {s : String} (h : s ∉ l) :
    l.contains s = false := by
  simpa using h

theorem syncGuardFails_syncBegin (st : SyncState) :
    syncGuardFails (syncBegin st) = true := by
  simp [syncGuardFails, syncBegin]

theorem syncWithAdds_of_guard_fails (a : SyncItem → Bool) (now : Nat)
    (st : SyncState) (added : List SyncItem) (h : syncGuardFails st = true) :
    syncWithAdds a now st added = (st, []) := by
  simp [syncWithAdds, h]

theorem guard_ok_of {st : SyncState} (h1 : st.isSyncing = false)
    (h2 : st.isOnline = true) (h3 : st.syncQueue ≠ []) :
    syncGuardFails st = false := by
  simp [syncGuardFails, h1, h2, List.isEmpty_iff, h3]

theorem syncWithAdds_queue (a : SyncItem → Bool) (now : Nat) (st : SyncState)
    (added : List SyncItem) (h : syncGuardFails st = false) :
    (syncWithAdds a now st added).1.syncQueue =
      ((processPass a st.syncQueue).1 ++ added).filter
        (fun j => !((processPass a st.syncQueue).2.contains j.id)) := by
  simp [syncWithAdds, h, syncFinish, syncBegin]

theorem syncWithAdds_persisted (a : SyncItem → Bool) (now : Nat) (st : SyncState)
    (added : List SyncItem) (h : syncGuardFails st = false) :
    (syncWithAdds a now st added).1.persisted =
      some (encodeQueue (syncWithAdds a now st added).1.syncQueue) := by
  simp [syncWithAdds, h, syncFinish, syncBegin]

theorem syncWithAdds_snd (a : SyncItem → Bool) (now : Nat) (st : SyncState)
    (added : List SyncItem) (h : syncGuardFails st = false) :
    (syncWithAdds a now st added).2 = st.syncQueue.map (fun i => i.id) := by
  simp [syncWithAdds, h]

theorem sync_queue (a : SyncItem → Bool) (now : Nat) (st : SyncState)
    (h : syncGuardFails st = false) :
    (sync a now st).1.syncQueue =
      (processPass a st.syncQueue).1.filter
        (fun j => !((processPass a st.syncQueue).2.contains j.id)) := by
  rw [sync, syncWithAdds_queue a now st [] h, List.append_nil]

theorem sync_isSyncing (a : SyncItem → Bool) (now : Nat) (st : SyncState)
    (h : syncGuardFails st = false) :
    (sync a now st).1.isSyncing = false := by
  simp [sync, syncWithAdds, h, syncFinish, syncBegin]

theorem sync_isOnline (a : SyncItem → Bool) (now : Nat) (st : SyncState)
    (h : syncGuardFails st = false) :
    (sync a now st).1.isOnline = st.isOnline := by
  simp [sync, syncWithAdds, h, syncFinish, syncBegin]

theorem sync_snd (a : SyncItem → Bool) (now : Nat) (st : SyncState)
    (h : syncGuardFails st = false) :
    (sync a now st).2 = st.syncQueue.map (fun i => i.id) := by
  simp [sync, syncWithAdds, h]

theorem mem_queue_after_pass (a : SyncItem → Bool) {l : List SyncItem}
    {i : SyncItem} (hnd : (l.map (fun j => j.id)).Nodup) (hi : i ∈ l)
    (hfail : a i = false) (hlow : i.retryCount + 1 < 3) :
    { i with retryCount := i.retryCount + 1 } ∈
      (processPass a l).1.filter
        (fun j => !((processPass a l).2.contains j.id)) := by
  rw [List.mem_filter]
  constructor
  · rw [processPass_fst]
    refine List.mem_map.mpr ⟨i, hi, ?_⟩
    simp [processItem, hfail]
  · have hnotmem : i.id ∉ (processPass a l).2 := by
      intro hmem
      rw [mem_processPass_snd] at hmem
      obtain ⟨j, hj, hjid, hcond⟩ := hmem
      have hji : j = i := List.inj_on_of_nodup_map hnd hj hi hjid
      subst hji
      rcases hcond with h | ⟨_, h⟩
      · rw [hfail] at h; cases h
      · omega
    have : ({ i with retryCount := i.retryCount + 1 } : SyncItem).id = i.id := rfl
    rw [this, contains_false_of_not_mem hnotmem]
    rfl

theorem not_mem_queue_after_pass (a : SyncItem → Bool) {l : List SyncItem}
    {i : SyncItem} (hi : i ∈ l) (hfail : a i = false)
    (hhigh : 3 ≤ i.retryCount + 1) :
    ∀ j ∈ (processPass a l).1.filter
      (fun j => !((processPass a l).2.contains j.id)), j.id ≠ i.id := by
  intro j hj heq
  rw [List.mem_filter] at hj
  have hmem : i.id ∈ (processPass a l).2 :=
    (mem_processPass_snd a l i.id).mpr ⟨i, hi, rfl, Or.inr ⟨hfail, hhigh⟩⟩
  rw [heq] at hj
  have hc : (processPass a l).2.contains i.id = true := by
    simpa using hmem
  rw [hc] at hj
  simpa using hj.2

theorem nodup_ids_after_pass (a : SyncItem → Bool) {l : List SyncItem}
    (hnd : (l.map (fun j => j.id)).Nodup) :
    (((processPass a l).1.filter
      (fun j => !((processPass a l).2.contains j.id))).map
        (fun j => j.id)).Nodup := by
  have hpass : ((processPass a l).1.map (fun j => j.id)).Nodup := by
    rw [processPass_ids]; exact hnd
  have hsub : List.Sublist
      ((processPass a l).1.filter (fun j => !((processPass a l).2.contains j.id)))
      (processPass a l).1 := List.filter_sublist _
  exact hpass.sublist (hsub.map _)

theorem sync_step_mem (a : SyncItem → Bool) (now : Nat) {st : SyncState}
    {i : SyncItem} (hsyncing : st.isSyncing = false) (honline : st.isOnline = true)
    (hnd : (st.syncQueue.map (fun j => j.id)).Nodup)
    (hi : i ∈ st.syncQueue) (hfail : a i = false)
    (hlow : i.retryCount + 1 < 3) :
    { i with retryCount := i.retryCount + 1 } ∈ (sync a now st).1.syncQueue ∧
    i.id ∈ (sync a now st).2 ∧
    (sync a now st).1.isSyncing = false ∧
    (sync a now st).1.isOnline = true ∧
    ((sync a now st).1.syncQueue.map (fun j => j.id)).Nodup := by
  have hg : syncGuardFails st = false :=
    guard_ok_of hsyncing honline (List.ne_nil_of_mem hi)
  refine ⟨?_, ?_, sync_isSyncing a now st hg, ?_, ?_⟩
  · rw [sync_queue a now st hg]
    exact mem_queue_after_pass a hnd hi hfail hlow
  · rw [sync_snd a now st hg]
    exact List.mem_map_of_mem _ hi
  · rw [sync_isOnline a now st hg]
    exact honline
  · rw [sync_queue a now st hg]
    exact nodup_ids_after_pass a hnd

theorem sync_step_removed (a : SyncItem → Bool) (now : Nat) {st : SyncState}
    {i : SyncItem} (hsyncing : st.isSyncing = false) (honline : st.isOnline = true)
    (hi : i ∈ st.syncQueue) (hfail : a i = false)
    (hhigh : 3 ≤ i.retryCount + 1) :
    (∀ j ∈ (sync a now st).1.syncQueue, j.id ≠ i.id) ∧
    i.id ∈ (sync a now st).2 := by
  have hg : syncGuardFails st = false :=
    guard_ok_of hsyncing honline (List.ne_nil_of_mem hi)
  constructor
  · rw [sync_queue a now st hg]
    exact not_mem_queue_after_pass a hi hfail hhigh
  · rw [sync_snd a now st hg]
    exact List.mem_map_of_mem _ hi

end BabySip.Sync

/-! ## Claims C5, C3, C10, C9 -/

namespace BabySip.Sync

/-- C5: Drain reentrancy: a sync() call that arrives while a pass is
already in progress, or while offline, or with an empty queue, returns
immediately with the state unchanged and nothing attempted; the state a
running pass exposes at every suspension point (the busy flag set by
syncBegin) makes any further sync() call such a no-op; and a pass that
does run attempts exactly the queue snapshot, each item once, in order. -/
theorem claim5_drain_reentrancy (a : SyncItem → Bool) (now : Nat)
    (st : SyncState) :
    (st.isSyncing = true ∨ st.isOnline = false ∨ st.syncQueue = [] →
      sync a now st = (st, [])) ∧
    (∀ now', sync a now' (syncBegin st) = (syncBegin st, [])) ∧
    (syncGuardFails st = false →
      (sync a now st).2 = st.syncQueue.map (fun i => i.id)) := by
  refine ⟨?_, ?_, ?_⟩
  · intro h
    apply syncWithAdds_of_guard_fails
    rcases h with h | h | h <;> simp [syncGuardFails, h]
  · intro now'
    exact syncWithAdds_of_guard_fails a now' (syncBegin st) []
      (syncGuardFails_syncBegin st)
  · intro h
    exact sync_snd a now st h

/-- Witness for C5: a busy state rejects a second drain unchanged; a
ready state attempts exactly its snapshot. -/
theorem claim5_drain_reentrancy_witness :
    ((⟨[⟨"q1", .bottle, .create, .bottleFields "b1" 100 "T" "#6366F1", 5, 0⟩],
        true, true, none, 1, none, none⟩ : SyncState).isSyncing = true ∨
      (⟨[⟨"q1", .bottle, .create, .bottleFields "b1" 100 "T" "#6366F1", 5, 0⟩],
        true, true, none, 1, none, none⟩ : SyncState).isOnline = false ∨
      (⟨[⟨"q1", .bottle, .create, .bottleFields "b1" 100 "T" "#6366F1", 5, 0⟩],
        true, true, none, 1, none, none⟩ : SyncState).syncQueue = []) ∧
    sync (fun _ => true) 9
      ⟨[⟨"q1", .bottle, .create, .bottleFields "b1" 100 "T" "#6366F1", 5, 0⟩],
        true, true, none, 1, none, none⟩ =
      (⟨[⟨"q1", .bottle, .create, .bottleFields "b1" 100 "T" "#6366F1", 5, 0⟩],
        true, true, none, 1, none, none⟩, []) ∧
    syncGuardFails
      ⟨[⟨"q1", .bottle, .create, .bottleFields "b1" 100 "T" "#6366F1", 5, 0⟩],
        true, false, none, 1, none, none⟩ = false ∧
    (sync (fun _ => true) 9
      ⟨[⟨"q1", .bottle, .create, .bottleFields "b1" 100 "T" "#6366F1", 5, 0⟩],
        true, false, none, 1, none, none⟩).2 = ["q1"] :=
  ⟨Or.inl rfl,
   (claim5_drain_reentrancy (fun _ => true) 9
      ⟨[⟨"q1", .bottle, .create, .bottleFields "b1" 100 "T" "#6366F1", 5, 0⟩],
        true, true, none, 1, none, none⟩).1 (Or.inl rfl),
   rfl,
   ((claim5_drain_reentrancy (fun _ => true) 9
      ⟨[⟨"q1", .bottle, .create, .bottleFields "b1" 100 "T" "#6366F1", 5, 0⟩],
        true, false, none, 1, none, none⟩).2.2 rfl).trans rfl⟩

/-- C3: Retry ceiling: an item whose remote replay fails on three
consecutive drain passes stays in the queue with retryCount 1 and then 2
after the first two failures, is attempted in each of the three passes,
is removed from the queue on the third failure (its retryCount having
reached 3), and is not attempted by a fourth pass. -/
theorem claim3_retry_ceiling (a : SyncItem → Bool) (st : SyncState)
    (i : SyncItem) (n1 n2 n3 n4 : Nat)
    (hsyncing : st.isSyncing = false) (honline : st.isOnline = true)
    (hnd : (st.syncQueue.map (fun j => j.id)).Nodup)
    (hi : i ∈ st.syncQueue) (hrc : i.retryCount = 0)
    (hfail : ∀ r, a { i with retryCount := r } = false) :
    { i with retryCount := 1 } ∈ (sync a n1 st).1.syncQueue ∧
    { i with retryCount := 2 } ∈ (sync a n2 (sync a n1 st).1).1.syncQueue ∧
    i.id ∈ (sync a n1 st).2 ∧
    i.id ∈ (sync a n2 (sync a n1 st).1).2 ∧
    i.id ∈ (sync a n3 (sync a n2 (sync a n1 st).1).1).2 ∧
    (∀ j ∈ (sync a n3 (sync a n2 (sync a n1 st).1).1).1.syncQueue,
      j.id ≠ i.id) ∧
    i.id ∉ (sync a n4 (sync a n3 (sync a n2 (sync a n1 st).1).1).1).2 := by
  obtain ⟨iid, ity, iact, idata, its, irc⟩ := i
  have hrc' : irc = 0 := hrc
  subst hrc'
  have step1 := sync_step_mem a n1 hsyncing honline hnd hi (hfail 0)
    (by show 0 + 1 < 3; decide)
  have step2 := sync_step_mem a n2 step1.2.2.1 step1.2.2.2.1 step1.2.2.2.2
    step1.1 (hfail 1) (by show 0 + 1 + 1 < 3; decide)
  have step3 := sync_step_removed a n3 step2.2.2.1 step2.2.2.2.1
    step2.1 (hfail 2) (by show 3 ≤ 0 + 1 + 1 + 1; decide)
  refine ⟨step1.1, step2.1, step1.2.1, step2.2.1, step3.2, step3.1, ?_⟩
  intro hmem4
  cases hgf : syncGuardFails (sync a n3 (sync a n2 (sync a n1 st).1).1).1 with
  | true =>
    rw [show sync a n4 (sync a n3 (sync a n2 (sync a n1 st).1).1).1
        = ((sync a n3 (sync a n2 (sync a n1 st).1).1).1, []) from
      syncWithAdds_of_guard_fails a n4 _ [] hgf] at hmem4
    simp at hmem4
  | false =>
    rw [sync_snd a n4 _ hgf] at hmem4
    obtain ⟨j, hj, hjid⟩ := List.mem_map.mp hmem4
    exact step3.1 j hj hjid

/-- Witness for C3: a single all-failing item is kept (retryCount 1) by
the first pass and no item with its id survives the third pass. -/
theorem claim3_retry_ceiling_witness :
    ((⟨"q1", .bottle, .create, .bottleFields "b1" 100 "T" "#6366F1", 5, 0⟩ :
        SyncItem) ∈
      (⟨[⟨"q1", .bottle, .create, .bottleFields "b1" 100 "T" "#6366F1", 5, 0⟩],
        true, false, none, 1, none, none⟩ : SyncState).syncQueue ∧
      (⟨"q1", .bottle, .create, .bottleFields "b1" 100 "T" "#6366F1", 5, 0⟩ :
        SyncItem).retryCount = 0) ∧
    ({ (⟨"q1", .bottle, .create, .bottleFields "b1" 100 "T" "#6366F1", 5, 0⟩ :
        SyncItem) with retryCount := 1 } ∈
      (sync (fun _ => false) 1
        ⟨[⟨"q1", .bottle, .create, .bottleFields "b1" 100 "T" "#6366F1", 5, 0⟩],
          true, false, none, 1, none, none⟩).1.syncQueue) ∧
    (∀ j ∈ (sync (fun _ => false) 3
        (sync (fun _ => false) 2
          (sync (fun _ => false) 1
            ⟨[⟨"q1", .bottle, .create, .bottleFields "b1" 100 "T" "#6366F1",
                5, 0⟩], true, false, none, 1, none, none⟩).1).1).1.syncQueue,
      j.id ≠ "q1") :=
  ⟨⟨by decide, rfl⟩,
   (claim3_retry_ceiling (fun _ => false)
      ⟨[⟨"q1", .bottle, .create, .bottleFields "b1" 100 "T" "#6366F1", 5, 0⟩],
        true, false, none, 1, none, none⟩
      ⟨"q1", .bottle, .create, .bottleFields "b1" 100 "T" "#6366F1", 5, 0⟩
      1 2 3 4 rfl rfl (by decide) (by decide) rfl (fun r => rfl)).1,
   (claim3_retry_ceiling (fun _ => false)
      ⟨[⟨"q1", .bottle, .create, .bottleFields "b1" 100 "T" "#6366F1", 5, 0⟩],
        true, false, none, 1, none, none⟩
      ⟨"q1", .bottle, .create, .bottleFields "b1" 100 "T" "#6366F1", 5, 0⟩
      1 2 3 4 rfl rfl (by decide) (by decide) rfl (fun r => rfl)).2.2.2.2.2.1⟩

/-- C10 (implicit): a drain pass removes only snapshotted items: items
enqueued after the snapshot was taken (their fresh ids not among the
pass's successfulItems) are all still in the queue, and in the persisted
queue, when the pass completes; the completed pass removes exactly those
snapshotted items that succeeded or whose retryCount reached 3. -/
theorem claim10_snapshot_removal (a : SyncItem → Bool) (now : Nat)
    (st : SyncState) (added : List SyncItem)
    (hguard : syncGuardFails st = false)
    (hfresh : ∀ j ∈ added, j.id ∉ (processPass a st.syncQueue).2) :
    (∀ j ∈ added, j ∈ (syncWithAdds a now st added).1.syncQueue) ∧
    ((syncWithAdds a now st added).1.persisted =
      some (encodeQueue (syncWithAdds a now st added).1.syncQueue)) ∧
    ((syncWithAdds a now st added).1.syncQueue =
      (processPass a st.syncQueue).1.filter
        (fun j => !((processPass a st.syncQueue).2.contains j.id)) ++ added) ∧
    (∀ s, s ∈ (processPass a st.syncQueue).2 ↔
      ∃ i, i ∈ st.syncQueue ∧ i.id = s ∧
        (a i = true ∨ (a i = false ∧ 3 ≤ i.retryCount + 1))) := by
  have haddf : added.filter
      (fun j => !((processPass a st.syncQueue).2.contains j.id)) = added := by
    apply List.filter_eq_self.mpr
    intro j hj
    rw [contains_false_of_not_mem (hfresh j hj)]
    rfl
  have hq2 : (syncWithAdds a now st added).1.syncQueue =
      (processPass a st.syncQueue).1.filter
        (fun j => !((processPass a st.syncQueue).2.contains j.id)) ++ added := by
    rw [syncWithAdds_queue a now st added hguard, List.filter_append, haddf]
  refine ⟨?_, syncWithAdds_persisted a now st added hguard, hq2,
    fun s => mem_processPass_snd a st.syncQueue s⟩
  intro j hj
  rw [hq2]
  exact List.mem_append_right _ hj

/-- Witness for C10: an item enqueued during the pass survives the pass. -/
theorem claim10_snapshot_removal_witness :
    (syncGuardFails
      ⟨[⟨"q1", .bottle, .create, .bottleFields "b1" 100 "T" "#6366F1", 5, 0⟩],
        true, false, none, 1, none, none⟩ = false ∧
      (∀ j ∈ ([⟨"q2", .poop, .delete, .idOnly "p1", 6, 0⟩] : List SyncItem),
        j.id ∉ (processPass (fun _ => false)
          [⟨"q1", .bottle, .create, .bottleFields "b1" 100 "T" "#6366F1",
            5, 0⟩]).2)) ∧
    (⟨"q2", .poop, .delete, .idOnly "p1", 6, 0⟩ : SyncItem) ∈
      (syncWithAdds (fun _ => false) 9
        ⟨[⟨"q1", .bottle, .create, .bottleFields "b1" 100 "T" "#6366F1", 5, 0⟩],
          true, false, none, 1, none, none⟩
        [⟨"q2", .poop, .delete, .idOnly "p1", 6, 0⟩]).1.syncQueue :=
  ⟨⟨rfl, by decide⟩,
   (claim10_snapshot_removal (fun _ => false) 9
      ⟨[⟨"q1", .bottle, .create, .bottleFields "b1" 100 "T" "#6366F1", 5, 0⟩],
        true, false, none, 1, none, none⟩
      [⟨"q2", .poop, .delete, .idOnly "p1", 6, 0⟩] rfl (by decide)).1
     ⟨"q2", .poop, .delete, .idOnly "p1", 6, 0⟩ (by decide)⟩

theorem enqueueMany_persisted :
    ∀ (adds : List (PendingItem × Nat × String)) (st : SyncState),
      (st.persisted = some (encodeQueue st.syncQueue) ∨
        (st.persisted = none ∧ st.syncQueue = [])) →
      ((enqueueMany st adds).persisted =
          some (encodeQueue (enqueueMany st adds).syncQueue) ∨
        ((enqueueMany st adds).persisted = none ∧
          (enqueueMany st adds).syncQueue = [])) := by
  intro adds
  induction adds with
  | nil => intro st h; exact h
  | cons c rest ih =>
    intro st _
    obtain ⟨p, now, rand⟩ := c
    apply ih
    left
    simp [addToSyncQueue]

/-- C9: Queue durability round-trip: starting from any state whose
persisted queue matches the in-memory queue (or a fresh install with
nothing persisted), enqueuing any sequence of items while offline (so
the trailing drain trigger of addToSyncQueue is a no-op) keeps the
persisted snapshot identical to the in-memory queue, and reloading the
queue from durable storage after a process restart yields exactly the
pre-restart queue — same items, same ids, same order. -/
theorem claim9_queue_durability (st : SyncState)
    (adds : List (PendingItem × Nat × String))
    (hoff : st.isOnline = false)
    (hinv : st.persisted = some (encodeQueue st.syncQueue) ∨
      (st.persisted = none ∧ st.syncQueue = [])) :
    ((enqueueMany st adds).persisted =
        some (encodeQueue (enqueueMany st adds).syncQueue) ∨
      ((enqueueMany st adds).persisted = none ∧
        (enqueueMany st adds).syncQueue = [])) ∧
    (loadSyncQueue (restartState (enqueueMany st adds).persisted)
        (enqueueMany st adds).persisted).syncQueue =
      (enqueueMany st adds).syncQueue := by
  have hinv' := enqueueMany_persisted adds st hinv
  refine ⟨hinv', ?_⟩
  rcases hinv' with h | ⟨h1, h2⟩
  · rw [h]
    simp [loadSyncQueue, decodeQueue_encodeQueue]
  · rw [h1, h2]
    simp [loadSyncQueue, restartState]

/-- Witness for C9: two items enqueued on a fresh offline install survive
a simulated restart unchanged. -/
theorem claim9_queue_durability_witness :
    ((restartState none).isOnline = false ∧
      ((restartState none).persisted =
          some (encodeQueue (restartState none).syncQueue) ∨
        ((restartState none).persisted = none ∧
          (restartState none).syncQueue = []))) ∧
    (loadSyncQueue
        (restartState (enqueueMany (restartState none)
          [(⟨.bottle, .create, .bottleFields "b1" 100 "T" "#6366F1"⟩, 5, "r1"),
           (⟨.poop, .delete, .idOnly "p1"⟩, 6, "r2")]).persisted)
        (enqueueMany (restartState none)
          [(⟨.bottle, .create, .bottleFields "b1" 100 "T" "#6366F1"⟩, 5, "r1"),
           (⟨.poop, .delete, .idOnly "p1"⟩, 6, "r2")]).persisted).syncQueue =
      (enqueueMany (restartState none)
        [(⟨.bottle, .create, .bottleFields "b1" 100 "T" "#6366F1"⟩, 5, "r1"),
         (⟨.poop, .delete, .idOnly "p1"⟩, 6, "r2")]).syncQueue :=
  ⟨⟨rfl, Or.inr ⟨rfl, rfl⟩⟩,
   (claim9_queue_durability (restartState none)
      [(⟨.bottle, .create, .bottleFields "b1" 100 "T" "#6366F1"⟩, 5, "r1"),
       (⟨.poop, .delete, .idOnly "p1"⟩, 6, "r2")] rfl (Or.inr ⟨rfl, rfl⟩)).2⟩

end BabySip.Sync

/-! ## Claim C4 -/

namespace BabySip.Api

/-- C4: Update-or-create fallback: replaying a queued update whose target
id does not exist remotely (PUT answers 404) performs a POST create with
the same payload, so that afterwards exactly one remote record exists
with that id, carrying the update's field values — for bottles and for
poops.  (The id/amount/time non-falsiness hypotheses mirror the record
invariants the POST validation enforces.) -/
theorem claim4_update_or_create (store : List CloudBottle) (id : String)
    (amount : Int) (time color : String)
    (pstore : List CloudPoop) (pid ptime : String) (pinfo : Option String)
    (hnotin : ∀ b ∈ store, b.id ≠ id)
    (hid : id ≠ "") (hamount : amount ≠ 0) (htime : time ≠ "")
    (hpnotin : ∀ p ∈ pstore, p.id ≠ pid)
    (hpid : pid ≠ "") (hptime : ptime ≠ "") :
    (∃ s, processBottleUpdate store id amount time color = .ok s ∧
      s.filter (fun b => b.id == id) =
        [⟨id, amount, time, jsOrDefault (some color) "#6366F1"⟩]) ∧
    (∃ s, processPoopUpdate pstore pid ptime pinfo none = .ok s ∧
      s.filter (fun p => p.id == pid) =
        [⟨pid, ptime, if jsFalsyStr pinfo then none else pinfo, "#8B4513"⟩]) := by
  have hid' : (id == "") = false := by simpa using hid
  have hamount' : (amount == 0) = false := by simpa using hamount
  have htime' : (time == "") = false := by simpa using htime
  have hpid' : (pid == "") = false := by simpa using hpid
  have hptime' : (ptime == "") = false := by simpa using hptime
  constructor
  · have hall : store.all (fun b => b.id != id) = true := by
      rw [List.all_eq_true]
      intro b hb
      simpa using hnotin b hb
    have hput : putBottle store id amount time color = .error .notFound := by
      simp [putBottle, hall]
    have hpost : postBottle store id amount time (some color) =
        .ok (store ++ [⟨id, amount, time, jsOrDefault (some color) "#6366F1"⟩]) := by
      simp [postBottle, hid', hamount', htime']
    refine ⟨store ++ [⟨id, amount, time, jsOrDefault (some color) "#6366F1"⟩],
      ?_, ?_⟩
    · simp [processBottleUpdate, hput, hpost]
    · rw [List.filter_append]
      have hnil : store.filter (fun b => b.id == id) = [] := by
        apply List.filter_eq_nil_iff.mpr
        intro b hb
        simpa using hnotin b hb
      rw [hnil]
      simp
  · have hall : pstore.all (fun p => p.id != pid) = true := by
      rw [List.all_eq_true]
      intro p hp
      simpa using hpnotin p hp
    have hput : putPoop pstore pid ptime pinfo none = .error .notFound := by
      simp [putPoop, hptime', hall]
    have hpost : postPoop pstore pid ptime pinfo none =
        .ok (pstore ++
          [⟨pid, ptime, if jsFalsyStr pinfo then none else pinfo, "#8B4513"⟩]) := by
      simp [postPoop, hpid', hptime', jsOrDefault]
    refine ⟨pstore ++
      [⟨pid, ptime, if jsFalsyStr pinfo then none else pinfo, "#8B4513"⟩],
      ?_, ?_⟩
    · simp [processPoopUpdate, hput, hpost]
    · rw [List.filter_append]
      have hnil : pstore.filter (fun p => p.id == pid) = [] := by
        apply List.filter_eq_nil_iff.mpr
        intro p hp
        simpa using hpnotin p hp
      rw [hnil]
      simp

/-- Witness for C4: an update of bottle "b9" (and poop "p9") against a
remote store that does not contain it ends with exactly one remote
record carrying the update's values. -/
theorem claim4_update_or_create_witness :
    ((∀ b ∈ ([⟨"b1", 100, "T0", "#6366F1"⟩] : List CloudBottle), b.id ≠ "b9") ∧
      ("b9" : String) ≠ "" ∧ (120 : Int) ≠ 0 ∧ ("T1" : String) ≠ "" ∧
      (∀ p ∈ ([] : List CloudPoop), p.id ≠ "p9") ∧
      ("p9" : String) ≠ "" ∧ ("T2" : String) ≠ "") ∧
    (∃ s, processBottleUpdate [⟨"b1", 100, "T0", "#6366F1"⟩] "b9" 120 "T1"
        "#FF0000" = .ok s ∧
      s.filter (fun b => b.id == "b9") =
        [⟨"b9", 120, "T1", jsOrDefault (some "#FF0000") "#6366F1"⟩]) :=
  ⟨⟨by decide, by decide, by decide, by decide, by decide, by decide, by decide⟩,
   (claim4_update_or_create [⟨"b1", 100, "T0", "#6366F1"⟩] "b9" 120 "T1"
      "#FF0000" [] "p9" "T2" (some "note") (by decide) (by decide) (by decide)
      (by decide) (by decide) (by decide) (by decide)).1⟩

end BabySip.Api
